import Mathlib

/-!
# Budget & Goal-Projection Engine: verification of `streamlit_app.py`

A shallow embedding of the quantitative core of the budgeting app:

* the budget summary computed by the submit handler (lines 71-73),
* the inline simple (no-growth) savings timeline (lines 126-128),
* `get_investment_timeline` (lines 26-38),
* the session-state transitions around chat reset and the
  `net_balance > 0` gate on the goal-projection section (lines 70-75,
  86-110, 119-133).

Numbers are modelled as real numbers.  Python numeric semantics are made
explicit: `a // b` is floor division, `a % b` is `a - b * floor (a / b)`
(for a positive divisor), `int x` truncates toward zero, and float
division by zero raises `ZeroDivisionError`, which we model with
`Except`.  `math.log` raises `ValueError` on a non-positive argument;
inside `get_investment_timeline` those exceptions are caught and turned
into `(0, 0)`, which the embedding renders as explicit guard branches.
-/

open Classical

/-- Python `int(x)` on a float: truncation toward zero. -/
noncomputable def int_trunc (x : ℝ) : ℤ :=
  if 0 ≤ x then ⌊x⌋ else ⌈x⌉

/-- Python float floor division `a // b` (result is a float equal to
`floor (a / b)`). -/
noncomputable def pyFloorDiv (a b : ℝ) : ℝ :=
  (⌊a / b⌋ : ℤ)

/-- Python float modulo `a % b`, which for the divisors used here
(`b = 12 > 0`) equals `a - b * floor (a / b)`. -/
noncomputable def pyMod (a b : ℝ) : ℝ :=
  a - b * (⌊a / b⌋ : ℤ)

/-- The fixed record of user-supplied income and expense fields
(the twelve `st.number_input` widgets, lines 49-66). -/
structure BudgetInputs where
  primary_income : ℝ
  additional_income : ℝ
  housing : ℝ
  utilities : ℝ
  internet : ℝ
  phone : ℝ
  groceries : ℝ
  transportation : ℝ
  insurance : ℝ
  subscriptions : ℝ
  dining_out : ℝ
  other : ℝ

/-- The derived budget summary stored in session state (lines 71-73). -/
structure BudgetSummary where
  total_income : ℝ
  total_expenses : ℝ
  net_balance : ℝ

/-- The submit handler arithmetic (lines 71-73): `total_income` is the sum
of the two income fields, `total_expenses` is Python
`sum([housing, ..., other])` over the ten expense fields, and
`net_balance` is their difference. -/
def summarize (i : BudgetInputs) : BudgetSummary :=
  let total_income := i.primary_income + i.additional_income
  let total_expenses := [i.housing, i.utilities, i.internet, i.phone, i.groceries,
    i.transportation, i.insurance, i.subscriptions, i.dining_out, i.other].sum
  ⟨total_income, total_expenses, total_income - total_expenses⟩

/-- `annual_rate = 0.099` (line 28). -/
noncomputable def annual_rate : ℝ := 0.099

/-- `monthly_rate = (1 + annual_rate)**(1/12) - 1` (line 29). -/
noncomputable def monthly_rate : ℝ := (1 + annual_rate) ^ ((1 : ℝ) / 12) - 1

/-- `get_investment_timeline` (lines 26-38).  The `try`/`except
(ValueError, ZeroDivisionError)` block is rendered as guard branches
returning `(0, 0)`: `math.log` raises `ValueError` when its argument is
not positive (either log call), and the division raises
`ZeroDivisionError` when `math.log(1 + monthly_rate)` is zero.  The final
components are Python `int(n // 12)` and `int(n % 12)`. -/
noncomputable def get_investment_timeline (savings_goal net_balance : ℝ) : ℤ × ℤ :=
  if monthly_rate = 0 ∨ net_balance ≤ 0 then (0, 0)
  else if savings_goal * monthly_rate / net_balance + 1 ≤ 0 then (0, 0)
  else if 1 + monthly_rate ≤ 0 then (0, 0)
  else if Real.log (1 + monthly_rate) = 0 then (0, 0)
  else
    let n_months_invested :=
      Real.log (savings_goal * monthly_rate / net_balance + 1) / Real.log (1 + monthly_rate)
    (int_trunc (pyFloorDiv n_months_invested 12), int_trunc (pyMod n_months_invested 12))

/-- The inline simple (no-growth) timeline of the goal-projection button
handler (lines 126-128): `simple_total_months = savings_goal /
net_balance`, `simple_years = int(simple_total_months // 12)`,
`simple_months = int(simple_total_months % 12)`.  Python float division
by zero raises `ZeroDivisionError`, modelled as `Except.error`. -/
noncomputable def simple_timeline (savings_goal net_balance : ℝ) : Except String (ℤ × ℤ) :=
  if net_balance = 0 then Except.error "ZeroDivisionError"
  else
    let simple_total_months := savings_goal / net_balance
    Except.ok (int_trunc (pyFloorDiv simple_total_months 12),
      int_trunc (pyMod simple_total_months 12))

/-- A `(years, months)` pair expressed in total months. -/
def totalMonths (p : ℤ × ℤ) : ℤ := 12 * p.1 + p.2

/-! ## Session-state model

The pieces of `st.session_state` the claims touch, and the handlers that
mutate them, as explicit state-passing functions.  The AI completion
client and the currency formatter are external collaborators, passed in
as function parameters. -/

/-- One role-tagged chat message (the dicts stored in
`st.session_state.messages`). -/
structure ChatMessage where
  role : String
  content : String
  deriving DecidableEq

/-- The session-state fields used by the claims. -/
structure SessionState where
  total_income : ℝ
  total_expenses : ℝ
  net_balance : ℝ
  budget_calculated : Bool
  messages : List ChatMessage

/-- The `if submitted:` handler (lines 70-75): stores the freshly computed
summary, sets `budget_calculated`, and clears the chat history. -/
def submitHandler (s : SessionState) (i : BudgetInputs) : SessionState :=
  let ti := i.primary_income + i.additional_income
  let te := [i.housing, i.utilities, i.internet, i.phone, i.groceries,
    i.transportation, i.insurance, i.subscriptions, i.dining_out, i.other].sum
  ⟨ti, te, ti - te, true, []⟩

/-- The system prompt of the initial chat call (line 101). -/
def system_prompt : String :=
  "You are a friendly and encouraging financial assistant AI. Your goal is to help users understand their budget and explore their financial goals."

/-- The f-string template of lines 88-99, abridged to its data
dependencies: the prompt embeds the formatted total income, total
expenses and net balance of the current session summary, then asks the
assistant to open the conversation.  `fmt` is the display-layer currency
formatter (a presentation concern outside the engine). -/
def initial_prompt (fmt : ℝ → String) (ti te nb : ℝ) : String :=
  "The user has just submitted their budget. Summary: Total Income: $" ++ fmt ti ++
    " Total Expenses: $" ++ fmt te ++ " Net Savings: $" ++ fmt nb ++
    " Start the conversation: give a brief one-sentence analysis of the budget, greet them warmly, and suggest a few example questions to get started."

/-- The initial-chat block (lines 86-110): when the budget has been
calculated and the transcript is empty, the app calls the completion
client `ai` on `[system, initial_prompt]` and appends the reply as the
assistant opening message.  Otherwise the state is unchanged. -/
def initChat (ai : List ChatMessage → String) (fmt : ℝ → String) (s : SessionState) :
    SessionState :=
  if s.budget_calculated = true then
    if s.messages = [] then
      let reply := ai [⟨"system", system_prompt⟩,
        ⟨"user", initial_prompt fmt s.total_income s.total_expenses s.net_balance⟩]
      ⟨s.total_income, s.total_expenses, s.net_balance, s.budget_calculated,
        s.messages ++ [⟨"assistant", reply⟩]⟩
    else s
  else s

/-- The savings-goal expander (lines 119-133): the whole section is
guarded by `if st.session_state.net_balance > 0`, and the timelines are
computed only when the button was clicked.  Returns the computed pair of
timelines (simple, invested) when the projection step runs, `none`
otherwise. -/
noncomputable def goalSection (s : SessionState) (savings_goal : ℝ) (clicked : Bool) :
    Option (Except String (ℤ × ℤ) × (ℤ × ℤ)) :=
  if 0 < s.net_balance then
    if clicked then
      some (simple_timeline savings_goal s.net_balance,
        get_investment_timeline savings_goal s.net_balance)
    else none
  else none

/-! ## Numeric helper lemmas -/

theorem int_trunc_intCast (k : ℤ) : int_trunc (k : ℝ) = k := by
  unfold int_trunc
  split <;> simp

theorem int_trunc_of_nonneg {x : ℝ} (h : 0 ≤ x) : int_trunc x = ⌊x⌋ := by
  unfold int_trunc
  rw [if_pos h]

theorem int_trunc_pyFloorDiv (a b : ℝ) : int_trunc (pyFloorDiv a b) = ⌊a / b⌋ := by
  unfold pyFloorDiv
  exact int_trunc_intCast _

theorem pyMod_nonneg (a : ℝ) : 0 ≤ pyMod a 12 := by
  have h : ((⌊a / 12⌋ : ℤ) : ℝ) ≤ a / 12 := Int.floor_le _
  have h12 : (12 : ℝ) * (a / 12) = a := by ring
  unfold pyMod
  nlinarith

theorem pyMod_lt (a : ℝ) : pyMod a 12 < 12 := by
  have h : a / 12 < (⌊a / 12⌋ : ℤ) + 1 := Int.lt_floor_add_one _
  have h12 : (12 : ℝ) * (a / 12) = a := by ring
  unfold pyMod
  nlinarith

theorem floor_pyMod (a : ℝ) : ⌊pyMod a 12⌋ = ⌊a⌋ - 12 * ⌊a / 12⌋ := by
  have h : pyMod a 12 = a - ((12 * ⌊a / 12⌋ : ℤ) : ℝ) := by
    unfold pyMod
    push_cast
    ring
  rw [h, Int.floor_sub_int]

theorem totalMonths_floor (x : ℝ) : totalMonths (⌊x / 12⌋, ⌊pyMod x 12⌋) = ⌊x⌋ := by
  unfold totalMonths
  rw [floor_pyMod]
  ring

theorem monthly_rate_pos : 0 < monthly_rate := by
  have h : (1 : ℝ) < (1 + annual_rate) ^ ((1 : ℝ) / 12) := by
    rw [Real.one_lt_rpow_iff_of_pos (by unfold annual_rate; norm_num)]
    exact Or.inl ⟨by unfold annual_rate; norm_num, by norm_num⟩
  unfold monthly_rate
  linarith

theorem log_one_add_monthly_rate_pos : 0 < Real.log (1 + monthly_rate) :=
  Real.log_pos (by linarith [monthly_rate_pos])

/-- The number of months computed inside `get_investment_timeline` when no
guard fires (line 33). -/
noncomputable def n_invested (g b : ℝ) : ℝ :=
  Real.log (g * monthly_rate / b + 1) / Real.log (1 + monthly_rate)

theorem simple_timeline_eval (g b : ℝ) (hb : b ≠ 0) :
    simple_timeline g b = Except.ok (⌊g / b / 12⌋, ⌊pyMod (g / b) 12⌋) := by
  unfold simple_timeline
  rw [if_neg hb]
  show Except.ok (int_trunc (pyFloorDiv (g / b) 12), int_trunc (pyMod (g / b) 12)) = _
  rw [int_trunc_pyFloorDiv, int_trunc_of_nonneg (pyMod_nonneg _)]

theorem get_investment_timeline_eval (g b : ℝ) (hb : 0 < b)
    (harg : 0 < g * monthly_rate / b + 1) :
    get_investment_timeline g b = (⌊n_invested g b / 12⌋, ⌊pyMod (n_invested g b) 12⌋) := by
  unfold get_investment_timeline
  rw [if_neg (not_or.mpr ⟨monthly_rate_pos.ne', not_le.mpr hb⟩),
    if_neg (not_le.mpr harg),
    if_neg (not_le.mpr (by linarith [monthly_rate_pos] : (0 : ℝ) < 1 + monthly_rate)),
    if_neg log_one_add_monthly_rate_pos.ne']
  show (int_trunc (pyFloorDiv (n_invested g b) 12), int_trunc (pyMod (n_invested g b) 12)) = _
  rw [int_trunc_pyFloorDiv, int_trunc_of_nonneg (pyMod_nonneg _)]

theorem n_invested_nonneg (g b : ℝ) (hg : 0 ≤ g) (hb : 0 < b) : 0 ≤ n_invested g b := by
  have harg : (1 : ℝ) ≤ g * monthly_rate / b + 1 := by
    have : 0 ≤ g * monthly_rate / b :=
      div_nonneg (mul_nonneg hg monthly_rate_pos.le) hb.le
    linarith
  exact div_nonneg (Real.log_nonneg harg) log_one_add_monthly_rate_pos.le

/-! ## Claim C1 -/

/-- **C1.** For every real-valued `BudgetInputs` record, `summarize`
returns `total_income = primary_income + additional_income`,
`total_expenses` = the sum of the ten expense fields, and
`net_balance = total_income - total_expenses`, exactly and with no
rounding. -/
theorem summarize_exact (i : BudgetInputs) :
    (summarize i).total_income = i.primary_income + i.additional_income ∧
    (summarize i).total_expenses =
      i.housing + i.utilities + i.internet + i.phone + i.groceries +
        i.transportation + i.insurance + i.subscriptions + i.dining_out + i.other ∧
    (summarize i).net_balance = (summarize i).total_income - (summarize i).total_expenses := by
  refine ⟨rfl, ?_, rfl⟩
  simp [summarize]
  ring

/-! ## Claim C2 -/

/-- **C2.** For every `savings_goal ≥ 0` and `net_balance > 0`, the simple
(no-growth) timeline equals `(floor (total_months / 12),
floor (total_months mod 12))` where `total_months = savings_goal /
net_balance` and the remainder is `total_months - 12 * floor
(total_months / 12)`; the `int` truncation toward zero coincides with
`floor` on these non-negative values. -/
theorem simple_timeline_spec (g b : ℝ) (hg : 0 ≤ g) (hb : 0 < b) :
    simple_timeline g b =
      Except.ok (⌊g / b / 12⌋, ⌊g / b - 12 * (⌊g / b / 12⌋ : ℤ)⌋) := by
  have ht : 0 ≤ g / b := div_nonneg hg hb.le
  rw [simple_timeline_eval g b hb.ne']
  unfold pyMod
  norm_num

/-- Witness for C2 at the spec's concrete scenario 2:
`savings_goal = 20000`, `net_balance = 1230` gives
`total_months = 20000 / 1230 ≈ 16.26`, hence 1 year and 4 months. -/
theorem simple_timeline_spec_witness :
    simple_timeline 20000 1230 = Except.ok (1, 4) := by
  have h := simple_timeline_spec 20000 1230 (by norm_num) (by norm_num)
  have h1 : ⌊(20000 : ℝ) / 1230 / 12⌋ = 1 := by
    rw [Int.floor_eq_iff]
    constructor <;> norm_num
  rw [h, h1]
  have h2 : ⌊(20000 : ℝ) / 1230 - 12 * ((1 : ℤ) : ℝ)⌋ = 4 := by
    rw [Int.floor_eq_iff]
    constructor <;> norm_num
  rw [h2]

/-! ## Claim C3 -/

/-- **C3.** For every `savings_goal ≥ 0` and `net_balance > 0`, the
invested timeline equals `(floor (n / 12), floor (n mod 12))` with
`n = log (savings_goal * m / net_balance + 1) / log (1 + m)` where
`m = (1 + 0.099) ^ (1/12) - 1` is the effective monthly rate, the same
`m` appearing in both the numerator and the denominator of the log
quotient. -/
theorem invested_timeline_spec (g b : ℝ) (hg : 0 ≤ g) (hb : 0 < b) :
    monthly_rate = (1 + 0.099) ^ ((1 : ℝ) / 12) - 1 ∧
    get_investment_timeline g b =
      (⌊Real.log (g * monthly_rate / b + 1) / Real.log (1 + monthly_rate) / 12⌋,
       ⌊pyMod (Real.log (g * monthly_rate / b + 1) / Real.log (1 + monthly_rate)) 12⌋) := by
  have harg : 0 < g * monthly_rate / b + 1 := by
    have : 0 ≤ g * monthly_rate / b :=
      div_nonneg (mul_nonneg hg monthly_rate_pos.le) hb.le
    linarith
  exact ⟨rfl, get_investment_timeline_eval g b hb harg⟩

/-- Witness for C3 at `savings_goal = 20000`, `net_balance = 1230`. -/
theorem invested_timeline_spec_witness :
    monthly_rate = (1 + 0.099) ^ ((1 : ℝ) / 12) - 1 ∧
    get_investment_timeline 20000 1230 =
      (⌊Real.log (20000 * monthly_rate / 1230 + 1) / Real.log (1 + monthly_rate) / 12⌋,
       ⌊pyMod (Real.log (20000 * monthly_rate / 1230 + 1) / Real.log (1 + monthly_rate)) 12⌋) :=
  invested_timeline_spec 20000 1230 (by norm_num) (by norm_num)

/-! ## Claim C6 -/

/-- **C6.** For every `net_balance > 0`, a zero savings goal gives the
zero timeline `(0, 0)` on both the simple and the invested path. -/
theorem zero_goal_zero_timelines (b : ℝ) (hb : 0 < b) :
    simple_timeline 0 b = Except.ok (0, 0) ∧ get_investment_timeline 0 b = (0, 0) := by
  constructor
  · rw [simple_timeline_eval 0 b hb.ne', zero_div]
    norm_num [pyMod]
  · have harg : 0 < (0 : ℝ) * monthly_rate / b + 1 := by
      rw [zero_mul, zero_div]
      norm_num
    rw [get_investment_timeline_eval 0 b hb harg]
    unfold n_invested
    rw [zero_mul, zero_div, zero_add, Real.log_one, zero_div]
    norm_num [pyMod]

/-- Witness for C6 at `net_balance = 1`. -/
theorem zero_goal_zero_timelines_witness :
    simple_timeline 0 1 = Except.ok (0, 0) ∧ get_investment_timeline 0 1 = (0, 0) :=
  zero_goal_zero_timelines 1 (by norm_num)

/-! ## Claim C10 -/

/-- **C10.** For every `savings_goal ≥ 0` and `net_balance > 0`, both
returned timelines satisfy `years ≥ 0` and `0 ≤ months ≤ 11`: the months
component is a valid sub-year remainder. -/
theorem timeline_range_invariant (g b : ℝ) (hg : 0 ≤ g) (hb : 0 < b) :
    ∃ p : ℤ × ℤ, simple_timeline g b = Except.ok p ∧
      0 ≤ p.1 ∧ 0 ≤ p.2 ∧ p.2 ≤ 11 ∧
      0 ≤ (get_investment_timeline g b).1 ∧
      0 ≤ (get_investment_timeline g b).2 ∧
      (get_investment_timeline g b).2 ≤ 11 := by
  have months_bounds : ∀ x : ℝ, 0 ≤ ⌊pyMod x 12⌋ ∧ ⌊pyMod x 12⌋ ≤ 11 := by
    intro x
    constructor
    · exact Int.floor_nonneg.mpr (pyMod_nonneg x)
    · have h : ⌊pyMod x 12⌋ < 12 := Int.floor_lt.mpr (by exact_mod_cast pyMod_lt x)
      omega
  refine ⟨(⌊g / b / 12⌋, ⌊pyMod (g / b) 12⌋), simple_timeline_eval g b hb.ne', ?_, ?_, ?_, ?_, ?_, ?_⟩
  · exact Int.floor_nonneg.mpr (div_nonneg (div_nonneg hg hb.le) (by norm_num))
  · exact (months_bounds _).1
  · exact (months_bounds _).2
  · have harg : 0 < g * monthly_rate / b + 1 := by
      have : 0 ≤ g * monthly_rate / b :=
        div_nonneg (mul_nonneg hg monthly_rate_pos.le) hb.le
      linarith
    rw [get_investment_timeline_eval g b hb harg]
    exact Int.floor_nonneg.mpr (div_nonneg (n_invested_nonneg g b hg hb) (by norm_num))
  · have harg : 0 < g * monthly_rate / b + 1 := by
      have : 0 ≤ g * monthly_rate / b :=
        div_nonneg (mul_nonneg hg monthly_rate_pos.le) hb.le
      linarith
    rw [get_investment_timeline_eval g b hb harg]
    exact (months_bounds _).1
  · have harg : 0 < g * monthly_rate / b + 1 := by
      have : 0 ≤ g * monthly_rate / b :=
        div_nonneg (mul_nonneg hg monthly_rate_pos.le) hb.le
      linarith
    rw [get_investment_timeline_eval g b hb harg]
    exact (months_bounds _).2

/-- Witness for C10 at `savings_goal = 0`, `net_balance = 1`. -/
theorem timeline_range_invariant_witness :
    ∃ p : ℤ × ℤ, simple_timeline 0 1 = Except.ok p ∧
      0 ≤ p.1 ∧ 0 ≤ p.2 ∧ p.2 ≤ 11 ∧
      0 ≤ (get_investment_timeline 0 1).1 ∧
      0 ≤ (get_investment_timeline 0 1).2 ∧
      (get_investment_timeline 0 1).2 ≤ 11 :=
  timeline_range_invariant 0 1 (by norm_num) (by norm_num)

/-! ## Claim C7 -/

/-- **C7.** `get_investment_timeline` is total on the reals: every
degenerate branch — zero effective monthly rate, `net_balance ≤ 0`, or a
non-positive logarithm argument — returns `(0, 0)`, and on every input
the function returns some pair of integers (no error path escapes: the
`try`/`except` catches `ValueError` and `ZeroDivisionError`). -/
theorem invested_timeline_total (g b : ℝ) :
    (monthly_rate = 0 → get_investment_timeline g b = (0, 0)) ∧
    (b ≤ 0 → get_investment_timeline g b = (0, 0)) ∧
    (g * monthly_rate / b + 1 ≤ 0 → get_investment_timeline g b = (0, 0)) ∧
    ∃ p : ℤ × ℤ, get_investment_timeline g b = p := by
  refine ⟨?_, ?_, ?_, ⟨_, rfl⟩⟩
  · intro h
    unfold get_investment_timeline
    rw [if_pos (Or.inl h)]
  · intro h
    unfold get_investment_timeline
    rw [if_pos (Or.inr h)]
  · intro h
    unfold get_investment_timeline
    by_cases h1 : monthly_rate = 0 ∨ b ≤ 0
    · rw [if_pos h1]
    · rw [if_neg h1, if_pos h]

/-- Witness for C7 at `savings_goal = 0`, `net_balance = 0` (the
`net_balance ≤ 0` branch). -/
theorem invested_timeline_total_witness : get_investment_timeline 0 0 = (0, 0) :=
  (invested_timeline_total 0 0).2.1 le_rfl

/-! ## Claim C4

The claim asserts that for `savings_goal ≥ 0` and `net_balance ≤ 0` both
timelines return `(0, 0)` without raising.  That is true of
`get_investment_timeline` (its first guard), but the simple timeline is
computed inline with a bare division `savings_goal / net_balance`
(line 126): at `net_balance = 0` it raises `ZeroDivisionError` instead
of returning `(0, 0)`. -/

/-- **C4, counterexample.** At `savings_goal = 0 ≥ 0` and
`net_balance = 0 ≤ 0`, the inline simple timeline raises
`ZeroDivisionError` rather than returning `(0, 0)` (the invested
timeline does return `(0, 0)`). -/
theorem simple_timeline_raises_at_zero :
    simple_timeline 0 0 = Except.error "ZeroDivisionError" ∧
    get_investment_timeline 0 0 = (0, 0) := by
  constructor
  · unfold simple_timeline
    rw [if_pos rfl]
  · unfold get_investment_timeline
    rw [if_pos (Or.inr le_rfl)]

/-- **C4, amended.** For every `savings_goal ≥ 0` and `net_balance ≤ 0`,
`get_investment_timeline` returns `(0, 0)` without raising; the inline
simple timeline does not share this guarantee: at `net_balance = 0` it
raises `ZeroDivisionError`. -/
theorem invested_degenerate_returns_zero (g b : ℝ) (hg : 0 ≤ g) (hb : b ≤ 0) :
    get_investment_timeline g b = (0, 0) ∧
    (b = 0 → simple_timeline g b = Except.error "ZeroDivisionError") := by
  refine ⟨?_, ?_⟩
  · unfold get_investment_timeline
    rw [if_pos (Or.inr hb)]
  · intro h
    unfold simple_timeline
    rw [if_pos h]

/-- Witness for the amended C4 at `savings_goal = 0`, `net_balance = 0`. -/
theorem invested_degenerate_returns_zero_witness :
    get_investment_timeline 0 0 = (0, 0) ∧
    ((0 : ℝ) = 0 → simple_timeline 0 0 = Except.error "ZeroDivisionError") :=
  invested_degenerate_returns_zero 0 0 le_rfl le_rfl

/-! ## Claim C5 -/

/-- **C5.** For every `savings_goal > 0` and `net_balance > 0`, the
invested timeline never exceeds the simple timeline when both are
compared as total months (`years * 12 + months`): investing at the
positive compounding rate never takes longer than plain saving.  (The
key inequality is Bernoulli: `1 + x * m ≤ (1 + m) ^ x` for `x ≥ 1`; for
`x < 1` both timelines truncate to zero total months.) -/
theorem invested_le_simple (g b : ℝ) (hg : 0 < g) (hb : 0 < b) :
    ∃ p : ℤ × ℤ, simple_timeline g b = Except.ok p ∧
      totalMonths (get_investment_timeline g b) ≤ totalMonths p := by
  have hm := monthly_rate_pos
  have hlog := log_one_add_monthly_rate_pos
  have hx0 : 0 < g / b := div_pos hg hb
  have hgb : g * monthly_rate / b = monthly_rate * (g / b) := by ring
  have harg : 0 < g * monthly_rate / b + 1 := by
    rw [hgb]
    nlinarith
  refine ⟨(⌊g / b / 12⌋, ⌊pyMod (g / b) 12⌋), simple_timeline_eval g b hb.ne', ?_⟩
  rw [get_investment_timeline_eval g b hb harg]
  rw [show (⌊n_invested g b / 12⌋, ⌊pyMod (n_invested g b) 12⌋) =
      ((⌊n_invested g b / 12⌋, ⌊pyMod (n_invested g b) 12⌋) : ℤ × ℤ) from rfl,
    totalMonths_floor, totalMonths_floor]
  rcases le_or_lt 1 (g / b) with hx1 | hx1
  · -- goal at least one month of plain saving: Bernoulli inequality
    apply Int.floor_le_floor
    unfold n_invested
    rw [hgb, div_le_iff₀ hlog]
    have hbern : 1 + (g / b) * monthly_rate ≤ (1 + monthly_rate) ^ (g / b) :=
      one_add_mul_self_le_rpow_one_add (by linarith) hx1
    have hlog2 : Real.log (monthly_rate * (g / b) + 1) ≤
        Real.log ((1 + monthly_rate) ^ (g / b)) := by
      rw [Real.log_le_log_iff (by nlinarith) (Real.rpow_pos_of_pos (by linarith) _)]
      nlinarith
    rwa [Real.log_rpow (by linarith)] at hlog2
  · -- under one month of plain saving: both floors vanish
    have hn0 : 0 ≤ n_invested g b := n_invested_nonneg g b hg.le hb
    have hn1 : n_invested g b < 1 := by
      unfold n_invested
      rw [hgb, div_lt_one hlog]
      apply Real.log_lt_log (by nlinarith)
      nlinarith
    have h1 : ⌊n_invested g b⌋ = 0 := Int.floor_eq_zero_iff.mpr ⟨hn0, hn1⟩
    have h2 : ⌊g / b⌋ = 0 := Int.floor_eq_zero_iff.mpr ⟨hx0.le, hx1⟩
    rw [h1, h2]

/-- Witness for C5 at `savings_goal = 1`, `net_balance = 1`. -/
theorem invested_le_simple_witness :
    ∃ p : ℤ × ℤ, simple_timeline 1 1 = Except.ok p ∧
      totalMonths (get_investment_timeline 1 1) ≤ totalMonths p :=
  invested_le_simple 1 1 (by norm_num) (by norm_num)

/-! ## Claim C8 -/

/-- **C8.** The calling layer never computes a goal projection in a state
with `net_balance ≤ 0`: whenever the savings-goal section produces a
projection result, the state satisfied the gate `net_balance > 0` — and
consequently the inline simple-timeline division cannot raise there. -/
theorem projection_gated (s : SessionState) (g : ℝ) (c : Bool)
    (r : Except String (ℤ × ℤ) × (ℤ × ℤ)) (h : goalSection s g c = some r) :
    0 < s.net_balance ∧ ∃ p : ℤ × ℤ, r.1 = Except.ok p := by
  unfold goalSection at h
  by_cases hnb : 0 < s.net_balance
  · rw [if_pos hnb] at h
    refine ⟨hnb, ?_⟩
    rcases c with _ | _
    · rw [if_neg (by simp)] at h
      exact absurd h (by simp)
    · rw [if_pos rfl] at h
      have hr : r = (simple_timeline g s.net_balance,
          get_investment_timeline g s.net_balance) := by
        exact (Option.some_inj.mp h).symm
      rw [hr]
      rw [simple_timeline_eval g s.net_balance hnb.ne']
      exact ⟨_, rfl⟩
  · rw [if_neg hnb] at h
    exact absurd h (by simp)

/-- Witness for C8: a state with `net_balance = 1`, the button clicked. -/
theorem projection_gated_witness :
    0 < (SessionState.mk 0 0 1 true []).net_balance ∧
      ∃ p : ℤ × ℤ, (simple_timeline 0 (SessionState.mk 0 0 1 true []).net_balance,
        get_investment_timeline 0 (SessionState.mk 0 0 1 true []).net_balance).1 =
          Except.ok p :=
  projection_gated (SessionState.mk 0 0 1 true []) 0 true _ (by
    unfold goalSection
    rw [if_pos (by norm_num), if_pos rfl])

/-! ## Claim C9 -/

/-- **C9.** Every budget form submission resets the chat transcript: after
the submit handler runs the message list is empty, so no chat turn from a
previous budget survives, and the subsequent initial-chat block
regenerates the assistant opening message from the newly computed
summary (the completion client `ai` applied to the system prompt and the
initial prompt built from `summarize` of the new inputs). -/
theorem submit_resets_chat (s : SessionState) (i : BudgetInputs)
    (ai : List ChatMessage → String) (fmt : ℝ → String) :
    (submitHandler s i).messages = [] ∧
    (initChat ai fmt (submitHandler s i)).messages =
      [⟨"assistant", ai [⟨"system", system_prompt⟩,
        ⟨"user", initial_prompt fmt (summarize i).total_income
          (summarize i).total_expenses (summarize i).net_balance⟩]⟩] := by
  constructor
  · rfl
  · rfl
